import Mathlib

/-!
Verification of `src/backend/scripts/transcribe.py` (streamvault).

The script is a command-line adapter around two speech-to-text backends:
the primary `faster_whisper` backend and a secondary `whisper` backend used
only when the primary library cannot be imported.  We embed the script
shallowly: the external world (which libraries are importable, what each
backend call returns or raises, which files exist) is a structure `Env` of
explicit outcomes; the Python result dict is an ordered association list of
keys to JSON values (Python dicts preserve insertion order, and `json.dumps`
serializes in that order); and a trace of `Event`s records every backend
interaction so that claims of the form "the secondary backend is never
invoked" or "the model is constructed with device cpu" are statable.

Python exceptions are modelled as a message plus a flag telling whether the
exception is an `ImportError`: the outer `try` of `transcribe` has an
`except ImportError` clause before its `except Exception` clause, so the
dynamic class of a raised error is observable in the control flow.
-/

/-- A JSON value as produced by the script (only booleans, strings and
numbers occur in its output dicts). -/
inductive JVal where
  | bool (b : Bool)
  | str (s : String)
  | num (q : ℚ)
deriving DecidableEq, Repr

/-- A Python dict about to be fed to `json.dumps`: keys with values, in
insertion order. -/
abbrev JDict := List (String × JVal)

/-- Python exception as observed by the handlers of `transcribe`: its
`str(e)` message, and whether the exception is an `ImportError` (the outer
`try` distinguishes `except ImportError` from `except Exception`). -/
structure PyErr where
  isImportError : Bool
  msg : String
deriving DecidableEq, Repr

/-- Summary metadata returned by the primary backend
(`info` in `segments, info = model.transcribe(...)`): detected language
(the empty string standing for a falsy/absent report, matching the truthiness
test `info.language if info.language else language`) and audio duration. -/
structure TranscribeInfo where
  language : String
  duration : ℚ
deriving DecidableEq, Repr

/-- Result dict of the secondary backend's `model.transcribe`: the value at
key `"text"`, and the value at key `"language"` when that key is present
(`result.get("language", language)` falls back when absent). -/
structure WhisperResult where
  text : String
  language : Option String
deriving DecidableEq, Repr

/-- Outcome of the Metal/MPS probe (`transcribe.py` lines 26-32): the
`import torch` inside the inner `try` may fail, `torch.backends.mps.is_available()`
may return either boolean or itself raise; the bare `except: pass` swallows
every error. -/
inductive ProbeOutcome where
  | torchImportFails
  | mpsAvailable
  | mpsUnavailable
  | probeRaises
deriving DecidableEq, Repr

/-- Backend interactions of one run, in order.  `primaryConstruct` records the
arguments of `WhisperModel(model_size, device=..., compute_type=...)`;
`primaryTranscribeCall` records the arguments of `model.transcribe(...)`
(path, language argument, beam_size, word_timestamps, vad_filter);
the `secondary*` events record the fallback's `import whisper`,
`whisper.load_model(...)` and `model.transcribe(audio_path, language=...)`. -/
inductive Event where
  | primaryImport (ok : Bool)
  | primaryConstruct (modelSize device computeType : String)
  | primaryTranscribeCall (path : String) (lang : Option String)
      (beamSize : Nat) (wordTimestamps vadFilter : Bool)
  | secondaryImport (ok : Bool)
  | secondaryLoadModel (size : String)
  | secondaryTranscribeCall (path lang : String)
deriving DecidableEq, Repr

/-- The external world of one process run: which libraries import, what the
environment variable `WHISPER_MODEL` holds, the probe outcome, what each
backend call returns or raises, and which paths exist on the filesystem. -/
structure Env where
  /-- `from faster_whisper import WhisperModel` succeeds. -/
  fwImportable : Bool
  /-- `os.environ.get("WHISPER_MODEL", "base")`: the variable's value when set. -/
  whisperModelEnv : Option String
  /-- Outcome of the torch/MPS probe. -/
  probe : ProbeOutcome
  /-- `WhisperModel(model_size, device, compute_type)`: `none` means the
  constructor returns normally, `some e` means it raises `e`. -/
  primaryConstruct : String → String → String → Option PyErr
  /-- `model.transcribe(audio_path, language=...)` together with the
  exhaustion of the lazy `segments` iterator: either raises, or yields the
  segment texts in emission order plus the summary metadata. -/
  primaryTranscribe : String → Option String → Except PyErr (List String × TranscribeInfo)
  /-- `import whisper` succeeds. -/
  whisperImportable : Bool
  /-- `str(e)` of the `ImportError` when `import whisper` fails. -/
  whisperImportErrMsg : String
  /-- `whisper.load_model("base")`: `none` means success, `some m` means it
  raises an exception with message `m`. -/
  whisperLoadModel : String → Option String
  /-- Secondary `model.transcribe(audio_path, language=language)`: raises or
  returns the result dict. -/
  whisperTranscribe : String → String → Except String WhisperResult
  /-- `os.path.exists`. -/
  fileExists : String → Bool

/-- ASCII whitespace as recognized by Python's `str.strip()` (we abstract
from the additional Unicode whitespace code points, which no claim
exercises). -/
def pyIsSpace (c : Char) : Bool :=
  c = ' ' || c = '\t' || c = '\n' || c = '\r' || c = '\x0b' || c = '\x0c'

/-- Drop the leading whitespace characters of a character list. -/
def dropLeadingSpace : List Char → List Char
  | [] => []
  | c :: cs => if pyIsSpace c then dropLeadingSpace cs else c :: cs

/-- Python's `str.strip()`: remove leading and trailing whitespace. -/
def pyStrip (s : String) : String :=
  String.mk (dropLeadingSpace (dropLeadingSpace s.data.reverse).reverse)

/-- Python's `sep.join(parts)`. -/
def pyJoin (sep : String) : List String → String
  | [] => ""
  | [s] => s
  | s :: rest => s ++ sep ++ pyJoin sep rest

/-- Device and compute-type selection (`transcribe.py` lines 21-32).  The
source sets `device = "cpu"` and `compute_type = "int8"`, then, inside a
`try` whose bare `except: pass` swallows every failure, reassigns the same
two literals when torch reports MPS available. -/
def probeDevice (probe : ProbeOutcome) : String × String :=
  match probe with
  | ProbeOutcome.mpsAvailable => ("cpu", "int8")
  | ProbeOutcome.mpsUnavailable => ("cpu", "int8")
  | ProbeOutcome.torchImportFails => ("cpu", "int8")
  | ProbeOutcome.probeRaises => ("cpu", "int8")

/-- The `except ImportError` branch of `transcribe` (`transcribe.py` lines
58-76): attempt the secondary `whisper` backend; its inner
`except Exception` turns any failure (import, model load, inference) into
`{"success": False, "error": "Whisper not available: " + str(e), "text": ""}`. -/
def fallbackWhisper (env : Env) (audio_path language : String) : List Event × JDict :=
  if env.whisperImportable then
    match env.whisperLoadModel "base" with
    | some m =>
        ([Event.secondaryImport true, Event.secondaryLoadModel "base"],
         [("success", JVal.bool false),
          ("error", JVal.str ("Whisper not available: " ++ m)),
          ("text", JVal.str "")])
    | none =>
        match env.whisperTranscribe audio_path language with
        | Except.error m =>
            ([Event.secondaryImport true, Event.secondaryLoadModel "base",
              Event.secondaryTranscribeCall audio_path language],
             [("success", JVal.bool false),
              ("error", JVal.str ("Whisper not available: " ++ m)),
              ("text", JVal.str "")])
        | Except.ok result =>
            ([Event.secondaryImport true, Event.secondaryLoadModel "base",
              Event.secondaryTranscribeCall audio_path language],
             [("success", JVal.bool true),
              ("text", JVal.str (pyStrip result.text)),
              ("language", JVal.str (result.language.getD language))])
  else
    ([Event.secondaryImport false],
     [("success", JVal.bool false),
      ("error", JVal.str ("Whisper not available: " ++ env.whisperImportErrMsg)),
      ("text", JVal.str "")])

/-- `transcribe(audio_path, language)` (`transcribe.py` lines 12-83),
returning the trace of backend interactions together with the result dict.
The outer `try` has two handlers in source order: `except ImportError`
(which therefore catches an `ImportError` raised anywhere in the block,
including by model construction or inference) goes to `fallbackWhisper`,
and `except Exception as e` returns
`{"success": False, "error": str(e), "text": ""}`. -/
def transcribe (env : Env) (audio_path language : String) : List Event × JDict :=
  if env.fwImportable then
    let model_size := env.whisperModelEnv.getD "base"
    let device := (probeDevice env.probe).1
    let compute_type := (probeDevice env.probe).2
    let tr0 := [Event.primaryImport true,
                Event.primaryConstruct model_size device compute_type]
    match env.primaryConstruct model_size device compute_type with
    | some e =>
        if e.isImportError then
          let fb := fallbackWhisper env audio_path language
          (tr0 ++ fb.1, fb.2)
        else
          (tr0, [("success", JVal.bool false),
                 ("error", JVal.str e.msg),
                 ("text", JVal.str "")])
    | none =>
        let langArg := if language = "" then none else some language
        let tr1 := tr0 ++ [Event.primaryTranscribeCall audio_path langArg 5 false true]
        match env.primaryTranscribe audio_path langArg with
        | Except.error e =>
            if e.isImportError then
              let fb := fallbackWhisper env audio_path language
              (tr1 ++ fb.1, fb.2)
            else
              (tr1, [("success", JVal.bool false),
                     ("error", JVal.str e.msg),
                     ("text", JVal.str "")])
        | Except.ok res =>
            let text_parts := res.1.map pyStrip
            let full_text := pyJoin " " text_parts
            (tr1, [("success", JVal.bool true),
                   ("text", JVal.str full_text),
                   ("language", JVal.str (if res.2.language = "" then language
                                          else res.2.language)),
                   ("duration", JVal.num res.2.duration)])
  else
    let fb := fallbackWhisper env audio_path language
    (Event.primaryImport false :: fb.1, fb.2)

/-- Observable behaviour of one process run: the dicts printed to standard
output (one list element per `print(json.dumps(...))` line), the exit status,
and the trace of backend interactions. -/
structure ProcOut where
  stdout : List JDict
  exitCode : Nat
  trace : List Event
deriving DecidableEq, Repr

/-- The `__main__` block (`transcribe.py` lines 86-99): usage check, audio
path and language from `sys.argv`, pre-flight `os.path.exists` check, then
`print(json.dumps(transcribe(audio_file, language)))` and implicit exit 0. -/
def mainEntry (env : Env) (argv : List String) : ProcOut :=
  if argv.length < 2 then
    { stdout := [[("success", JVal.bool false),
                  ("error", JVal.str "Usage: transcribe.py <audio_file> [language]")]],
      exitCode := 1, trace := [] }
  else
    let audio_file := argv.getD 1 ""
    let language := argv.getD 2 "en"
    if env.fileExists audio_file = false then
      { stdout := [[("success", JVal.bool false),
                    ("error", JVal.str ("File not found: " ++ audio_file))]],
        exitCode := 1, trace := [] }
    else
      let r := transcribe env audio_file language
      { stdout := [r.2], exitCode := 0, trace := r.1 }

/-- The value stored at a key of a dict, if the key is present. -/
def lookupKey (d : JDict) (k : String) : Option JVal :=
  match d with
  | [] => none
  | (k2, v) :: rest => if k2 = k then some v else lookupKey rest k

/-- Whether an event is an interaction with the secondary backend. -/
def isSecondaryEvent : Event → Bool
  | Event.secondaryImport _ => true
  | Event.secondaryLoadModel _ => true
  | Event.secondaryTranscribeCall _ _ => true
  | _ => false

/-- A world where the primary backend works: the library imports, the model
constructs, and inference yields two segments with detected language `"en"`
and duration 3.2 seconds (the spec's concrete scenario). -/
def envPrimaryOk : Env where
  fwImportable := true
  whisperModelEnv := none
  probe := ProbeOutcome.mpsUnavailable
  primaryConstruct := fun _ _ _ => none
  primaryTranscribe := fun _ _ =>
    Except.ok ([" Hello ", "world. "], { language := "en", duration := 16/5 })
  whisperImportable := false
  whisperImportErrMsg := "No module named whisper"
  whisperLoadModel := fun _ => none
  whisperTranscribe := fun _ _ => Except.error "unused"
  fileExists := fun _ => true

/-- A world where the primary backend imports but inference yields no
segments. -/
def envPrimaryEmpty : Env where
  fwImportable := true
  whisperModelEnv := none
  probe := ProbeOutcome.mpsUnavailable
  primaryConstruct := fun _ _ _ => none
  primaryTranscribe := fun _ _ => Except.ok ([], { language := "", duration := 0 })
  whisperImportable := false
  whisperImportErrMsg := "No module named whisper"
  whisperLoadModel := fun _ => none
  whisperTranscribe := fun _ _ => Except.error "unused"
  fileExists := fun _ => true

/-- A world where the primary library imports but `WhisperModel(...)` raises
an `ImportError` (for example a missing native dependency), while the
secondary backend works. -/
def envConstructImportErr : Env where
  fwImportable := true
  whisperModelEnv := none
  probe := ProbeOutcome.torchImportFails
  primaryConstruct := fun _ _ _ => some { isImportError := true, msg := "libctranslate2 missing" }
  primaryTranscribe := fun _ _ => Except.error { isImportError := false, msg := "unreached" }
  whisperImportable := true
  whisperImportErrMsg := ""
  whisperLoadModel := fun _ => none
  whisperTranscribe := fun _ _ => Except.ok { text := " hi ", language := some "en" }
  fileExists := fun _ => true

/-- A world where the primary library imports but `WhisperModel(...)` raises
an ordinary (non-import) error. -/
def envConstructFail : Env where
  fwImportable := true
  whisperModelEnv := some "small"
  probe := ProbeOutcome.probeRaises
  primaryConstruct := fun _ _ _ => some { isImportError := false, msg := "model download failed" }
  primaryTranscribe := fun _ _ => Except.error { isImportError := false, msg := "unreached" }
  whisperImportable := true
  whisperImportErrMsg := ""
  whisperLoadModel := fun _ => none
  whisperTranscribe := fun _ _ => Except.ok { text := "hi", language := none }
  fileExists := fun _ => true

/-- A world where the primary library cannot be imported and the secondary
backend's inference raises. -/
def envNoFwWhisperErr : Env where
  fwImportable := false
  whisperModelEnv := none
  probe := ProbeOutcome.mpsUnavailable
  primaryConstruct := fun _ _ _ => none
  primaryTranscribe := fun _ _ => Except.error { isImportError := false, msg := "unreached" }
  whisperImportable := true
  whisperImportErrMsg := ""
  whisperLoadModel := fun _ => none
  whisperTranscribe := fun _ _ => Except.error "audio decode failed"
  fileExists := fun _ => true

/-- The world `envPrimaryOk` with an empty filesystem. -/
def envMissingFile : Env := { envPrimaryOk with fileExists := fun _ => false }

theorem probeDevice_fst (p : ProbeOutcome) : (probeDevice p).1 = "cpu" := by
  cases p <;> rfl

theorem probeDevice_snd (p : ProbeOutcome) : (probeDevice p).2 = "int8" := by
  cases p <;> rfl

theorem fallbackWhisper_noImport (env : Env) (path lang : String)
    (h : env.whisperImportable = false) :
    fallbackWhisper env path lang =
      ([Event.secondaryImport false],
       [("success", JVal.bool false),
        ("error", JVal.str ("Whisper not available: " ++ env.whisperImportErrMsg)),
        ("text", JVal.str "")]) := by
  simp [fallbackWhisper, h]

theorem fallbackWhisper_loadErr (env : Env) (path lang m : String)
    (h : env.whisperImportable = true)
    (hl : env.whisperLoadModel "base" = some m) :
    fallbackWhisper env path lang =
      ([Event.secondaryImport true, Event.secondaryLoadModel "base"],
       [("success", JVal.bool false),
        ("error", JVal.str ("Whisper not available: " ++ m)),
        ("text", JVal.str "")]) := by
  simp [fallbackWhisper, h, hl]

theorem fallbackWhisper_transcribeErr (env : Env) (path lang m : String)
    (h : env.whisperImportable = true)
    (hl : env.whisperLoadModel "base" = none)
    (ht : env.whisperTranscribe path lang = Except.error m) :
    fallbackWhisper env path lang =
      ([Event.secondaryImport true, Event.secondaryLoadModel "base",
        Event.secondaryTranscribeCall path lang],
       [("success", JVal.bool false),
        ("error", JVal.str ("Whisper not available: " ++ m)),
        ("text", JVal.str "")]) := by
  simp [fallbackWhisper, h, hl, ht]

theorem fallbackWhisper_ok (env : Env) (path lang : String) (r : WhisperResult)
    (h : env.whisperImportable = true)
    (hl : env.whisperLoadModel "base" = none)
    (ht : env.whisperTranscribe path lang = Except.ok r) :
    fallbackWhisper env path lang =
      ([Event.secondaryImport true, Event.secondaryLoadModel "base",
        Event.secondaryTranscribeCall path lang],
       [("success", JVal.bool true),
        ("text", JVal.str (pyStrip r.text)),
        ("language", JVal.str (r.language.getD lang))]) := by
  simp [fallbackWhisper, h, hl, ht]

theorem transcribe_noFw (env : Env) (path lang : String)
    (h : env.fwImportable = false) :
    transcribe env path lang =
      (Event.primaryImport false :: (fallbackWhisper env path lang).1,
       (fallbackWhisper env path lang).2) := by
  simp [transcribe, h]

theorem transcribe_primary_ok (env : Env) (path lang : String)
    (segs : List String) (info : TranscribeInfo)
    (himp : env.fwImportable = true)
    (hcon : env.primaryConstruct (env.whisperModelEnv.getD "base") "cpu" "int8" = none)
    (htr : env.primaryTranscribe path (if lang = "" then none else some lang) =
             Except.ok (segs, info)) :
    transcribe env path lang =
      ([Event.primaryImport true,
        Event.primaryConstruct (env.whisperModelEnv.getD "base") "cpu" "int8",
        Event.primaryTranscribeCall path (if lang = "" then none else some lang) 5 false true],
       [("success", JVal.bool true),
        ("text", JVal.str (pyJoin " " (segs.map pyStrip))),
        ("language", JVal.str (if info.language = "" then lang else info.language)),
        ("duration", JVal.num info.duration)]) := by
  simp [transcribe, himp, probeDevice_fst, probeDevice_snd, hcon, htr]

theorem transcribe_construct_raise (env : Env) (path lang : String) (e : PyErr)
    (himp : env.fwImportable = true)
    (hcon : env.primaryConstruct (env.whisperModelEnv.getD "base") "cpu" "int8" = some e)
    (hie : e.isImportError = false) :
    transcribe env path lang =
      ([Event.primaryImport true,
        Event.primaryConstruct (env.whisperModelEnv.getD "base") "cpu" "int8"],
       [("success", JVal.bool false),
        ("error", JVal.str e.msg),
        ("text", JVal.str "")]) := by
  simp [transcribe, himp, probeDevice_fst, probeDevice_snd, hcon, hie]

theorem transcribe_construct_importErr (env : Env) (path lang : String) (e : PyErr)
    (himp : env.fwImportable = true)
    (hcon : env.primaryConstruct (env.whisperModelEnv.getD "base") "cpu" "int8" = some e)
    (hie : e.isImportError = true) :
    transcribe env path lang =
      ([Event.primaryImport true,
        Event.primaryConstruct (env.whisperModelEnv.getD "base") "cpu" "int8"]
         ++ (fallbackWhisper env path lang).1,
       (fallbackWhisper env path lang).2) := by
  simp [transcribe, himp, probeDevice_fst, probeDevice_snd, hcon, hie]

theorem transcribe_infer_raise (env : Env) (path lang : String) (e : PyErr)
    (himp : env.fwImportable = true)
    (hcon : env.primaryConstruct (env.whisperModelEnv.getD "base") "cpu" "int8" = none)
    (htr : env.primaryTranscribe path (if lang = "" then none else some lang) =
             Except.error e)
    (hie : e.isImportError = false) :
    transcribe env path lang =
      ([Event.primaryImport true,
        Event.primaryConstruct (env.whisperModelEnv.getD "base") "cpu" "int8",
        Event.primaryTranscribeCall path (if lang = "" then none else some lang) 5 false true],
       [("success", JVal.bool false),
        ("error", JVal.str e.msg),
        ("text", JVal.str "")]) := by
  simp [transcribe, himp, probeDevice_fst, probeDevice_snd, hcon, htr, hie]

theorem transcribe_infer_importErr (env : Env) (path lang : String) (e : PyErr)
    (himp : env.fwImportable = true)
    (hcon : env.primaryConstruct (env.whisperModelEnv.getD "base") "cpu" "int8" = none)
    (htr : env.primaryTranscribe path (if lang = "" then none else some lang) =
             Except.error e)
    (hie : e.isImportError = true) :
    transcribe env path lang =
      ([Event.primaryImport true,
        Event.primaryConstruct (env.whisperModelEnv.getD "base") "cpu" "int8",
        Event.primaryTranscribeCall path (if lang = "" then none else some lang) 5 false true]
         ++ (fallbackWhisper env path lang).1,
       (fallbackWhisper env path lang).2) := by
  simp [transcribe, himp, probeDevice_fst, probeDevice_snd, hcon, htr, hie]

theorem fallbackWhisper_dict_cases (env : Env) (path lang : String) :
    (∃ t l, (fallbackWhisper env path lang).2 =
       [("success", JVal.bool true), ("text", JVal.str t), ("language", JVal.str l)]) ∨
    (∃ m, (fallbackWhisper env path lang).2 =
       [("success", JVal.bool false), ("error", JVal.str ("Whisper not available: " ++ m)),
        ("text", JVal.str "")]) := by
  by_cases hw : env.whisperImportable = true
  · cases hl : env.whisperLoadModel "base" with
    | some m =>
        right
        exact ⟨m, by rw [fallbackWhisper_loadErr env path lang m hw hl]⟩
    | none =>
        cases ht : env.whisperTranscribe path lang with
        | error m =>
            right
            exact ⟨m, by rw [fallbackWhisper_transcribeErr env path lang m hw hl ht]⟩
        | ok r =>
            left
            exact ⟨pyStrip r.text, r.language.getD lang,
              by rw [fallbackWhisper_ok env path lang r hw hl ht]⟩
  · right
    exact ⟨env.whisperImportErrMsg,
      by rw [fallbackWhisper_noImport env path lang (by simpa using hw)]⟩

theorem transcribe_dict_cases (env : Env) (path lang : String) :
    (∃ t l, (transcribe env path lang).2 =
       [("success", JVal.bool true), ("text", JVal.str t), ("language", JVal.str l)]) ∨
    (∃ t l d, (transcribe env path lang).2 =
       [("success", JVal.bool true), ("text", JVal.str t), ("language", JVal.str l),
        ("duration", JVal.num d)]) ∨
    (∃ m, (transcribe env path lang).2 =
       [("success", JVal.bool false), ("error", JVal.str m), ("text", JVal.str "")]) := by
  by_cases himp : env.fwImportable = true
  · cases hcon : env.primaryConstruct (env.whisperModelEnv.getD "base") "cpu" "int8" with
    | some e =>
        cases hie : e.isImportError with
        | true =>
            have h := transcribe_construct_importErr env path lang e himp hcon hie
            rcases fallbackWhisper_dict_cases env path lang with ⟨t, l, hf⟩ | ⟨m, hf⟩
            · exact Or.inl ⟨t, l, by rw [h]; exact hf⟩
            · exact Or.inr (Or.inr ⟨_, by rw [h]; exact hf⟩)
        | false =>
            have h := transcribe_construct_raise env path lang e himp hcon hie
            exact Or.inr (Or.inr ⟨e.msg, by rw [h]⟩)
    | none =>
        cases htr : env.primaryTranscribe path (if lang = "" then none else some lang) with
        | ok res =>
            have h := transcribe_primary_ok env path lang res.1 res.2 himp hcon (by rw [htr])
            exact Or.inr (Or.inl ⟨_, _, res.2.duration, by rw [h]⟩)
        | error e =>
            cases hie : e.isImportError with
            | true =>
                have h := transcribe_infer_importErr env path lang e himp hcon htr hie
                rcases fallbackWhisper_dict_cases env path lang with ⟨t, l, hf⟩ | ⟨m, hf⟩
                · exact Or.inl ⟨t, l, by rw [h]; exact hf⟩
                · exact Or.inr (Or.inr ⟨_, by rw [h]; exact hf⟩)
            | false =>
                have h := transcribe_infer_raise env path lang e himp hcon htr hie
                exact Or.inr (Or.inr ⟨e.msg, by rw [h]⟩)
  · have h := transcribe_noFw env path lang (by simpa using himp)
    rcases fallbackWhisper_dict_cases env path lang with ⟨t, l, hf⟩ | ⟨m, hf⟩
    · exact Or.inl ⟨t, l, by rw [h]; exact hf⟩
    · exact Or.inr (Or.inr ⟨_, by rw [h]; exact hf⟩)

theorem fallbackWhisper_probe_congr (env : Env) (p : ProbeOutcome) (path lang : String) :
    fallbackWhisper { env with probe := p } path lang = fallbackWhisper env path lang := rfl

theorem transcribe_probe_congr (env : Env) (p : ProbeOutcome) (path lang : String) :
    transcribe { env with probe := p } path lang = transcribe env path lang := by
  unfold transcribe
  simp only [probeDevice_fst, probeDevice_snd]
  rfl

theorem mem_fallback_not_construct (env : Env) (path lang ms d ct : String) :
    Event.primaryConstruct ms d ct ∉ (fallbackWhisper env path lang).1 := by
  by_cases hw : env.whisperImportable = true
  · cases hl : env.whisperLoadModel "base" with
    | some m => rw [fallbackWhisper_loadErr env path lang m hw hl]; simp
    | none =>
        cases ht : env.whisperTranscribe path lang with
        | error m => rw [fallbackWhisper_transcribeErr env path lang m hw hl ht]; simp
        | ok r => rw [fallbackWhisper_ok env path lang r hw hl ht]; simp
  · rw [fallbackWhisper_noImport env path lang (by simpa using hw)]; simp

theorem transcribe_construct_event (env : Env) (path lang ms d ct : String)
    (hmem : Event.primaryConstruct ms d ct ∈ (transcribe env path lang).1) :
    d = "cpu" ∧ ct = "int8" := by
  by_cases himp : env.fwImportable = true
  · cases hcon : env.primaryConstruct (env.whisperModelEnv.getD "base") "cpu" "int8" with
    | some e =>
        cases hie : e.isImportError with
        | true =>
            rw [transcribe_construct_importErr env path lang e himp hcon hie] at hmem
            simp only [List.cons_append, List.nil_append, List.mem_cons] at hmem
            rcases hmem with h | h | hmem
            · exact absurd h (by simp)
            · obtain ⟨_, hd, hct⟩ := Event.primaryConstruct.inj h
              exact ⟨hd, hct⟩
            · exact absurd hmem (mem_fallback_not_construct env path lang ms d ct)
        | false =>
            rw [transcribe_construct_raise env path lang e himp hcon hie] at hmem
            simp only [List.mem_cons, List.not_mem_nil, or_false] at hmem
            rcases hmem with h | h
            · exact absurd h (by simp)
            · obtain ⟨_, hd, hct⟩ := Event.primaryConstruct.inj h
              exact ⟨hd, hct⟩
    | none =>
        cases htr : env.primaryTranscribe path (if lang = "" then none else some lang) with
        | ok res =>
            rw [transcribe_primary_ok env path lang res.1 res.2 himp hcon (by rw [htr])] at hmem
            simp only [List.mem_cons, List.not_mem_nil, or_false] at hmem
            rcases hmem with h | h | h
            · exact absurd h (by simp)
            · obtain ⟨_, hd, hct⟩ := Event.primaryConstruct.inj h
              exact ⟨hd, hct⟩
            · exact absurd h (by simp)
        | error e =>
            cases hie : e.isImportError with
            | true =>
                rw [transcribe_infer_importErr env path lang e himp hcon htr hie] at hmem
                simp only [List.cons_append, List.nil_append, List.mem_cons] at hmem
                rcases hmem with h | h | h | hmem
                · exact absurd h (by simp)
                · obtain ⟨_, hd, hct⟩ := Event.primaryConstruct.inj h
                  exact ⟨hd, hct⟩
                · exact absurd h (by simp)
                · exact absurd hmem (mem_fallback_not_construct env path lang ms d ct)
            | false =>
                rw [transcribe_infer_raise env path lang e himp hcon htr hie] at hmem
                simp only [List.mem_cons, List.not_mem_nil, or_false] at hmem
                rcases hmem with h | h | h
                · exact absurd h (by simp)
                · obtain ⟨_, hd, hct⟩ := Event.primaryConstruct.inj h
                  exact ⟨hd, hct⟩
                · exact absurd h (by simp)
  · rw [transcribe_noFw env path lang (by simpa using himp)] at hmem
    simp only [List.mem_cons] at hmem
    rcases hmem with h | hmem
    · exact absurd h (by simp)
    · exact absurd hmem (mem_fallback_not_construct env path lang ms d ct)

/-- Claim C1: for every successful primary-backend run of `transcribe`, the
result has `success = true`, its `text` field equals the concatenation, in
backend order, of the segment texts each trimmed of whitespace and joined
with a single space, and its `duration` field is present and equals the
backend metadata's duration. -/
theorem C1_primary_success (env : Env) (path lang : String)
    (segs : List String) (info : TranscribeInfo)
    (himp : env.fwImportable = true)
    (hcon : env.primaryConstruct (env.whisperModelEnv.getD "base") "cpu" "int8" = none)
    (htr : env.primaryTranscribe path (if lang = "" then none else some lang) =
             Except.ok (segs, info)) :
    lookupKey (transcribe env path lang).2 "success" = some (JVal.bool true) ∧
    lookupKey (transcribe env path lang).2 "text" =
      some (JVal.str (pyJoin " " (segs.map pyStrip))) ∧
    lookupKey (transcribe env path lang).2 "duration" = some (JVal.num info.duration) := by
  rw [transcribe_primary_ok env path lang segs info himp hcon htr]
  refine ⟨rfl, rfl, ?_⟩
  simp [lookupKey]

/-- Witness for C1 at the spec's concrete scenario: two segments
`" Hello "` and `"world. "`, detected language `"en"`, duration 3.2. -/
theorem C1_witness :
    lookupKey (transcribe envPrimaryOk "speech.wav" "en").2 "success" =
      some (JVal.bool true) ∧
    lookupKey (transcribe envPrimaryOk "speech.wav" "en").2 "text" =
      some (JVal.str (pyJoin " " ([" Hello ", "world. "].map pyStrip))) ∧
    lookupKey (transcribe envPrimaryOk "speech.wav" "en").2 "duration" =
      some (JVal.num (16/5)) :=
  C1_primary_success envPrimaryOk "speech.wav" "en" [" Hello ", "world. "]
    { language := "en", duration := 16/5 } rfl rfl rfl

/-- Counterexample to claim C2 as stated: when the primary library imports
but `WhisperModel(...)` raises an `ImportError`, the `except ImportError`
handler of the outer `try` catches it and the secondary backend IS invoked;
the run even succeeds through the fallback instead of returning
`success=false` with that error's message. -/
theorem C2_counterexample :
    envConstructImportErr.primaryConstruct
        (envConstructImportErr.whisperModelEnv.getD "base") "cpu" "int8" =
      some { isImportError := true, msg := "libctranslate2 missing" } ∧
    Event.secondaryTranscribeCall "a.wav" "en" ∈
      (transcribe envConstructImportErr "a.wav" "en").1 ∧
    lookupKey (transcribe envConstructImportErr "a.wav" "en").2 "success" =
      some (JVal.bool true) ∧
    lookupKey (transcribe envConstructImportErr "a.wav" "en").2 "error" ≠
      some (JVal.str "libctranslate2 missing") :=
  ⟨rfl, by decide, by decide, by decide⟩

/-- Claim C2 (amended): for every run where the primary library imports and
the primary backend raises an error that is not an `ImportError` during
model construction or inference, the result is `success=false` with `error`
equal to that error's message and `text` the empty string, and the secondary
backend is never invoked.  (An `ImportError` raised during construction or
inference is caught by the `except ImportError` handler and triggers the
fallback, exactly as if the library were absent.) -/
theorem C2_amended_primary_failure (env : Env) (path lang : String) (e : PyErr)
    (himp : env.fwImportable = true)
    (hie : e.isImportError = false)
    (hfail : env.primaryConstruct (env.whisperModelEnv.getD "base") "cpu" "int8" = some e ∨
      (env.primaryConstruct (env.whisperModelEnv.getD "base") "cpu" "int8" = none ∧
       env.primaryTranscribe path (if lang = "" then none else some lang) =
         Except.error e)) :
    (transcribe env path lang).2 =
      [("success", JVal.bool false), ("error", JVal.str e.msg), ("text", JVal.str "")] ∧
    ∀ ev ∈ (transcribe env path lang).1, isSecondaryEvent ev = false := by
  rcases hfail with hcon | ⟨hcon, htr⟩
  · rw [transcribe_construct_raise env path lang e himp hcon hie]
    refine ⟨rfl, ?_⟩
    intro ev hev
    simp only [List.mem_cons, List.not_mem_nil, or_false] at hev
    rcases hev with rfl | rfl <;> rfl
  · rw [transcribe_infer_raise env path lang e himp hcon htr hie]
    refine ⟨rfl, ?_⟩
    intro ev hev
    simp only [List.mem_cons, List.not_mem_nil, or_false] at hev
    rcases hev with rfl | rfl | rfl <;> rfl

/-- Witness for the amended C2: a non-import construction failure yields the
raw error message and touches no secondary-backend machinery. -/
theorem C2_witness :
    (transcribe envConstructFail "a.wav" "en").2 =
      [("success", JVal.bool false), ("error", JVal.str "model download failed"),
       ("text", JVal.str "")] ∧
    ∀ ev ∈ (transcribe envConstructFail "a.wav" "en").1, isSecondaryEvent ev = false :=
  C2_amended_primary_failure envConstructFail "a.wav" "en"
    { isImportError := false, msg := "model download failed" } rfl rfl (Or.inl rfl)

/-- Claim C3: when the primary library cannot be imported, the secondary
backend is attempted with the originally requested language (any secondary
inference call in the trace carries `path` and `lang` unchanged), and if the
secondary raises, the result is `success=false`, `text=""`, and `error` is
the primary-unavailable message concatenated with the secondary's error
text. -/
theorem C3_import_fallback (env : Env) (path lang : String)
    (himp : env.fwImportable = false) :
    (∀ p l, Event.secondaryTranscribeCall p l ∈ (transcribe env path lang).1 →
        p = path ∧ l = lang) ∧
    (env.whisperImportable = true →
     env.whisperLoadModel "base" = none →
     ∀ m, env.whisperTranscribe path lang = Except.error m →
       Event.secondaryTranscribeCall path lang ∈ (transcribe env path lang).1 ∧
       (transcribe env path lang).2 =
         [("success", JVal.bool false),
          ("error", JVal.str ("Whisper not available: " ++ m)),
          ("text", JVal.str "")]) := by
  rw [transcribe_noFw env path lang himp]
  constructor
  · intro p l hmem
    simp only [List.mem_cons] at hmem
    rcases hmem with h | hmem
    · simp at h
    · by_cases hw : env.whisperImportable = true
      · cases hl : env.whisperLoadModel "base" with
        | some m =>
            rw [fallbackWhisper_loadErr env path lang m hw hl] at hmem
            simp at hmem
        | none =>
            cases ht : env.whisperTranscribe path lang with
            | error m =>
                rw [fallbackWhisper_transcribeErr env path lang m hw hl ht] at hmem
                simpa using hmem
            | ok r =>
                rw [fallbackWhisper_ok env path lang r hw hl ht] at hmem
                simpa using hmem
      · rw [fallbackWhisper_noImport env path lang (by simpa using hw)] at hmem
        simp at hmem
  · intro hw hl m ht
    rw [fallbackWhisper_transcribeErr env path lang m hw hl ht]
    exact ⟨by simp, rfl⟩

/-- Witness for C3: primary library absent, secondary inference raises; the
secondary was called with the requested language `"fr"` and the composed
error message is returned. -/
theorem C3_witness :
    (∀ p l, Event.secondaryTranscribeCall p l ∈
        (transcribe envNoFwWhisperErr "a.wav" "fr").1 → p = "a.wav" ∧ l = "fr") ∧
    (envNoFwWhisperErr.whisperImportable = true →
     envNoFwWhisperErr.whisperLoadModel "base" = none →
     ∀ m, envNoFwWhisperErr.whisperTranscribe "a.wav" "fr" = Except.error m →
       Event.secondaryTranscribeCall "a.wav" "fr" ∈
         (transcribe envNoFwWhisperErr "a.wav" "fr").1 ∧
       (transcribe envNoFwWhisperErr "a.wav" "fr").2 =
         [("success", JVal.bool false),
          ("error", JVal.str ("Whisper not available: " ++ m)),
          ("text", JVal.str "")]) :=
  C3_import_fallback envNoFwWhisperErr "a.wav" "fr" rfl

/-- Claim C4: for every invocation whose audio path does not exist, the
process prints exactly the object with keys `success=false` and
`error="File not found: <path>"` (path interpolated verbatim), exits with
status 1, and no backend is touched (the trace is empty). -/
theorem C4_file_not_found (env : Env) (prog a : String) (rest : List String)
    (hne : env.fileExists a = false) :
    mainEntry env (prog :: a :: rest) =
      { stdout := [[("success", JVal.bool false),
                    ("error", JVal.str ("File not found: " ++ a))]],
        exitCode := 1, trace := [] } := by
  unfold mainEntry
  rw [if_neg (by simp only [List.length_cons]; omega)]
  simp [List.getD_cons_succ, List.getD_cons_zero, hne]

/-- Witness for C4 at the spec's concrete scenario `missing.wav`. -/
theorem C4_witness :
    mainEntry envMissingFile ["transcribe.py", "missing.wav"] =
      { stdout := [[("success", JVal.bool false),
                    ("error", JVal.str ("File not found: " ++ "missing.wav"))]],
        exitCode := 1, trace := [] } :=
  C4_file_not_found envMissingFile "transcribe.py" "missing.wav" [] rfl

/-- Claim C5: with zero audio-file arguments the process prints the fixed
usage-error object and exits 1; with one argument the language defaults to
`"en"`; with two or more the second argument is the language and further
arguments are ignored; and whenever `transcribe` is reached the exit status
is 0 regardless of the result. -/
theorem C5_entry_contract (env : Env) (prog a l : String) (rest : List String)
    (hex : env.fileExists a = true) :
    mainEntry env [prog] =
      { stdout := [[("success", JVal.bool false),
                    ("error", JVal.str "Usage: transcribe.py <audio_file> [language]")]],
        exitCode := 1, trace := [] } ∧
    mainEntry env [prog, a] =
      { stdout := [(transcribe env a "en").2], exitCode := 0,
        trace := (transcribe env a "en").1 } ∧
    mainEntry env (prog :: a :: l :: rest) =
      { stdout := [(transcribe env a l).2], exitCode := 0,
        trace := (transcribe env a l).1 } := by
  refine ⟨rfl, ?_, ?_⟩
  · unfold mainEntry
    rw [if_neg (by simp)]
    simp [List.getD_cons_succ, List.getD_cons_zero, hex]
  · unfold mainEntry
    rw [if_neg (by simp only [List.length_cons]; omega)]
    simp [List.getD_cons_succ, List.getD_cons_zero, hex]

/-- Witness for C5: a world whose filesystem has every file, with a
three-plus-argument invocation whose extra argument is ignored. -/
theorem C5_witness :
    mainEntry envPrimaryOk ["transcribe.py"] =
      { stdout := [[("success", JVal.bool false),
                    ("error", JVal.str "Usage: transcribe.py <audio_file> [language]")]],
        exitCode := 1, trace := [] } ∧
    mainEntry envPrimaryOk ["transcribe.py", "speech.wav"] =
      { stdout := [(transcribe envPrimaryOk "speech.wav" "en").2], exitCode := 0,
        trace := (transcribe envPrimaryOk "speech.wav" "en").1 } ∧
    mainEntry envPrimaryOk ["transcribe.py", "speech.wav", "fr", "extra"] =
      { stdout := [(transcribe envPrimaryOk "speech.wav" "fr").2], exitCode := 0,
        trace := (transcribe envPrimaryOk "speech.wav" "fr").1 } :=
  C5_entry_contract envPrimaryOk "transcribe.py" "speech.wav" "fr" ["extra"] rfl

/-- Claim C6: the primary backend is invoked with the language forced to the
requested value unless the requested language is empty (in which case a null
language hint requests auto-detection), and on primary success the result's
`language` field is the backend's detected language, falling back to the
requested language when the backend reports none. -/
theorem C6_language_forcing (env : Env) (path lang : String)
    (himp : env.fwImportable = true)
    (hcon : env.primaryConstruct (env.whisperModelEnv.getD "base") "cpu" "int8" = none) :
    Event.primaryTranscribeCall path (if lang = "" then none else some lang) 5 false true
        ∈ (transcribe env path lang).1 ∧
    ∀ segs info,
      env.primaryTranscribe path (if lang = "" then none else some lang) =
          Except.ok (segs, info) →
        lookupKey (transcribe env path lang).2 "language" =
          some (JVal.str (if info.language = "" then lang else info.language)) := by
  constructor
  · cases htr : env.primaryTranscribe path (if lang = "" then none else some lang) with
    | ok res =>
        rw [transcribe_primary_ok env path lang res.1 res.2 himp hcon (by rw [htr])]
        simp
    | error e =>
        cases hie : e.isImportError with
        | true =>
            rw [transcribe_infer_importErr env path lang e himp hcon htr hie]
            simp
        | false =>
            rw [transcribe_infer_raise env path lang e himp hcon htr hie]
            simp
  · intro segs info htr
    rw [transcribe_primary_ok env path lang segs info himp hcon htr]
    simp [lookupKey]

/-- Witness for C6 at a run with requested language `"en"` and detected
language `"en"`. -/
theorem C6_witness :
    Event.primaryTranscribeCall "speech.wav"
        (if "en" = "" then none else some "en") 5 false true
        ∈ (transcribe envPrimaryOk "speech.wav" "en").1 ∧
    ∀ segs info,
      envPrimaryOk.primaryTranscribe "speech.wav"
          (if "en" = "" then none else some "en") = Except.ok (segs, info) →
        lookupKey (transcribe envPrimaryOk "speech.wav" "en").2 "language" =
          some (JVal.str (if info.language = "" then "en" else info.language)) :=
  C6_language_forcing envPrimaryOk "speech.wav" "en" rfl rfl

/-- Counterexample to claim C7 as stated: the usage-error object printed for
an invocation with no audio-file argument has no `text` key at all, and the
file-not-found object also lacks it. -/
theorem C7_counterexample :
    lookupKey ((mainEntry envPrimaryOk ["transcribe.py"]).stdout.getD 0 []) "text" =
      none ∧
    lookupKey ((mainEntry envMissingFile ["transcribe.py", "missing.wav"]).stdout.getD 0 [])
      "text" = none := by
  constructor <;> decide

/-- Claim C7 (amended): every invocation prints exactly one JSON object;
every object produced by `transcribe` has a `text` key, as the empty string
rather than absent on failure; but the two pre-flight error objects printed
at the process boundary (usage error and file-not-found) contain only
`success` and `error` and no `text` key. -/
theorem C7_amended_output_shape (env : Env) (argv : List String) (path lang : String) :
    (mainEntry env argv).stdout.length = 1 ∧
    (lookupKey (transcribe env path lang).2 "text").isSome = true ∧
    (lookupKey (transcribe env path lang).2 "success" = some (JVal.bool false) →
      lookupKey (transcribe env path lang).2 "text" = some (JVal.str "")) := by
  have hd := transcribe_dict_cases env path lang
  refine ⟨?_, ?_, ?_⟩
  · unfold mainEntry
    match argv with
    | [] => rfl
    | [p] => rfl
    | p :: a :: rest =>
        rw [if_neg (by simp only [List.length_cons]; omega)]
        by_cases hex : env.fileExists a = false
        · simp [hex]
        · simp [hex]
  · rcases hd with ⟨t, l, h⟩ | ⟨t, l, d, h⟩ | ⟨m, h⟩ <;> rw [h] <;> rfl
  · intro hfail
    rcases hd with ⟨t, l, h⟩ | ⟨t, l, d, h⟩ | ⟨m, h⟩
    · rw [h] at hfail; simp [lookupKey] at hfail
    · rw [h] at hfail; simp [lookupKey] at hfail
    · rw [h]; rfl

/-- Witness for the amended C7 at a usage-error invocation and a failing
adapter run. -/
theorem C7_witness :
    (mainEntry envConstructFail ["transcribe.py"]).stdout.length = 1 ∧
    (lookupKey (transcribe envConstructFail "a.wav" "en").2 "text").isSome = true ∧
    (lookupKey (transcribe envConstructFail "a.wav" "en").2 "success" =
        some (JVal.bool false) →
      lookupKey (transcribe envConstructFail "a.wav" "en").2 "text" =
        some (JVal.str "")) :=
  C7_amended_output_shape envConstructFail ["transcribe.py"] "a.wav" "en"

/-- Claim C8: the outcome of the Metal/MPS accelerator probe has no effect
on the run — two runs differing only in the probe outcome produce identical
traces and results, the device/compute-type selection is the constant
`("cpu", "int8")`, and every model construction recorded in any trace uses
device `"cpu"` and compute type `"int8"`.  (The probe's own failures are
swallowed by the bare `except: pass`, which is why `ProbeOutcome.probeRaises`
and `ProbeOutcome.torchImportFails` are ordinary, behaviour-free outcomes.) -/
theorem C8_probe_no_effect (env : Env) (p1 p2 : ProbeOutcome) (path lang : String) :
    transcribe { env with probe := p1 } path lang =
      transcribe { env with probe := p2 } path lang ∧
    probeDevice p1 = ("cpu", "int8") ∧
    (∀ ms d ct, Event.primaryConstruct ms d ct ∈ (transcribe env path lang).1 →
      d = "cpu" ∧ ct = "int8") := by
  refine ⟨?_, ?_, ?_⟩
  · exact (transcribe_probe_congr env p1 path lang).trans
      (transcribe_probe_congr env p2 path lang).symm
  · cases p1 <;> rfl
  · intro ms d ct hmem
    exact transcribe_construct_event env path lang ms d ct hmem

/-- Witness for C8: the probe reporting an available MPS accelerator and the
probe failing outright give the same run. -/
theorem C8_witness :
    transcribe { envPrimaryOk with probe := ProbeOutcome.mpsAvailable } "speech.wav" "en" =
      transcribe { envPrimaryOk with probe := ProbeOutcome.probeRaises } "speech.wav" "en" ∧
    probeDevice ProbeOutcome.mpsAvailable = ("cpu", "int8") ∧
    (∀ ms d ct, Event.primaryConstruct ms d ct ∈
        (transcribe envPrimaryOk "speech.wav" "en").1 → d = "cpu" ∧ ct = "int8") :=
  C8_probe_no_effect envPrimaryOk ProbeOutcome.mpsAvailable ProbeOutcome.probeRaises
    "speech.wav" "en"

/-- Claim C9: every failure result returned by `transcribe` consists of
exactly the keys `success`, `error` and `text`, in that order — in
particular it has no `language` and no `duration` key. -/
theorem C9_failure_keys (env : Env) (path lang : String)
    (hfail : lookupKey (transcribe env path lang).2 "success" = some (JVal.bool false)) :
    ((transcribe env path lang).2).map Prod.fst = ["success", "error", "text"] ∧
    lookupKey (transcribe env path lang).2 "language" = none ∧
    lookupKey (transcribe env path lang).2 "duration" = none := by
  rcases transcribe_dict_cases env path lang with ⟨t, l, h⟩ | ⟨t, l, d, h⟩ | ⟨m, h⟩
  · rw [h] at hfail; simp [lookupKey] at hfail
  · rw [h] at hfail; simp [lookupKey] at hfail
  · rw [h]; exact ⟨rfl, rfl, rfl⟩

/-- Witness for C9 at a run whose primary model construction raises an
ordinary error. -/
theorem C9_witness :
    lookupKey (transcribe envConstructFail "a.wav" "en").2 "success" =
      some (JVal.bool false) ∧
    (((transcribe envConstructFail "a.wav" "en").2).map Prod.fst =
        ["success", "error", "text"] ∧
     lookupKey (transcribe envConstructFail "a.wav" "en").2 "language" = none ∧
     lookupKey (transcribe envConstructFail "a.wav" "en").2 "duration" = none) :=
  ⟨by decide, C9_failure_keys envConstructFail "a.wav" "en" (by decide)⟩

/-- Claim C10: if the primary backend succeeds but yields zero segments,
`transcribe` still returns `success=true` with `text` equal to the empty
string. -/
theorem C10_empty_transcript (env : Env) (path lang : String) (info : TranscribeInfo)
    (himp : env.fwImportable = true)
    (hcon : env.primaryConstruct (env.whisperModelEnv.getD "base") "cpu" "int8" = none)
    (htr : env.primaryTranscribe path (if lang = "" then none else some lang) =
             Except.ok ([], info)) :
    lookupKey (transcribe env path lang).2 "success" = some (JVal.bool true) ∧
    lookupKey (transcribe env path lang).2 "text" = some (JVal.str "") := by
  rw [transcribe_primary_ok env path lang [] info himp hcon htr]
  exact ⟨rfl, rfl⟩

/-- Witness for C10 at a run yielding no segments. -/
theorem C10_witness :
    lookupKey (transcribe envPrimaryEmpty "silent.wav" "en").2 "success" =
      some (JVal.bool true) ∧
    lookupKey (transcribe envPrimaryEmpty "silent.wav" "en").2 "text" =
      some (JVal.str "") :=
  C10_empty_transcript envPrimaryEmpty "silent.wav" "en"
    { language := "", duration := 0 } rfl rfl rfl
